import Mathlib

/-!
# CAN-FD example application (`main.c`): embedding and verified properties

The application consists of `main` (initialisation followed by a polling loop),
the button interrupt handler `isr_button` and the receive callback
`canfd_rx_callback`.  The peripheral driver, the board support package and the
UART retarget layer are external: a call into them is represented by the value
it returns (taken from the environment) and by its visible effect on the
modelled hardware state (LED level, interrupt latches, UART text, the list of
transmit requests handed to the driver).
-/

namespace Canfd

/-! ## Constants of `main.c` -/

def CANFD_NODE_1 : Nat := 1
def CANFD_NODE_2 : Nat := 2
def USE_CANFD_NODE : Nat := CANFD_NODE_1

def CANFD_HW_CHANNEL : Nat := 0
def CANFD_BUFFER_INDEX : Nat := 0

def CANFD_DLC : Nat := 8

/-! ## Constants of the headers used by `main.c` -/

/-- Modelled from the spec: the success code of `cy_rslt_t`, declared in the
board-support headers; only equality with it is ever tested. -/
def CY_RSLT_SUCCESS : Nat := 0

/-- Modelled from the spec: the success code of `cy_en_canfd_status_t`, declared
in the driver header; only equality with it is ever tested. -/
def CY_CANFD_SUCCESS : Nat := 0

/-- Modelled from the spec: the value of the `rtr` field that marks a data
frame (declared in the driver header); every other value is a
remote-transmission request. -/
def CY_CANFD_RTR_DATA_FRAME : Nat := 0

/-- Modelled from the spec: the value of the `rtr` field of a
remote-transmission request (declared in the driver header). -/
def CY_CANFD_RTR_REMOTE_FRAME : Nat := 1

/-- Modelled from the spec: word index of the first payload word (declared in
the generated configuration header); the payload is 8 bytes, two words. -/
def CANFD_DATA_0 : Nat := 0

/-- Modelled from the spec: word index of the second payload word (declared in
the generated configuration header). -/
def CANFD_DATA_1 : Nat := 1

/-! ## Machine arithmetic and `printf` -/

/-- Value stored in a `uint32_t`. -/
def uint32 (n : Nat) : Nat := n % 2 ^ 32

/-- Value stored in a `uint8_t`. -/
def uint8 (n : Nat) : Nat := n % 2 ^ 8

/-- The cast `(int)x` of a `uint32_t` on the 32-bit target. -/
def toInt32 (n : Nat) : Int :=
  if n % 2 ^ 32 < 2 ^ 31 then ((n % 2 ^ 32 : Nat) : Int)
  else ((n % 2 ^ 32 : Nat) : Int) - 2 ^ 32

/-- Text produced by the conversion `%d`. -/
def fmt_d (v : Int) : String :=
  if v < 0 then "-" ++ Nat.repr v.natAbs else Nat.repr v.toNat

/-- Byte `k` of the memory behind a `uint32_t*` (the core is little-endian);
`p j` is the word at offset `j` from the pointer. -/
def memByte (p : Nat → Nat) (k : Nat) : Nat :=
  uint32 (p (k / 4)) / 2 ^ (8 * (k % 4)) % 256

/-- The four bytes of a 32-bit word in memory order (little-endian). -/
def wordBytes (w : Nat) : List Nat :=
  [w % 256, w / 2 ^ 8 % 256, w / 2 ^ 16 % 256, w / 2 ^ 24 % 256]

/-- The bytes of a word array in memory order. -/
def bytesOfWords : List Nat → List Nat
  | [] => []
  | w :: ws => wordBytes w ++ bytesOfWords ws

/-! ## Data model -/

/-- Target of the pointer `CANFD_txBuffer_0.data_area_f`. -/
inductive DataPtr
  | configDefault
  | canfd_dataBuffer
  deriving DecidableEq, Repr

/-- One call of `Cy_CANFD_UpdateAndTransmitMsgBuffer`, with the content of the
descriptor at the time of the call. -/
structure TxRequest where
  chan : Nat
  index : Nat
  id : Nat
  data : List Nat
  deriving DecidableEq, Repr

/-- Global variables of the application and the hardware state its calls
act on. -/
structure State where
  /-- The variable `static volatile bool ButtonIntrFlag`. -/
  ButtonIntrFlag : Bool
  /-- The array `static uint32_t canfd_dataBuffer[]`. -/
  canfd_dataBuffer : List Nat
  /-- The field `CANFD_T0RegisterBuffer_0.id`, the identifier of the transmit descriptor. -/
  T0_id : Nat
  /-- The pointer `CANFD_txBuffer_0.data_area_f`. -/
  data_area_f : DataPtr
  /-- Data area of the generated configuration, the pointer target at reset. -/
  configData : List Nat
  /-- Interrupt latch of the button pin (cleared by `Cy_GPIO_ClearInterrupt`). -/
  btnPinIntr : Bool
  /-- Pending bit of the button IRQ in the NVIC (cleared by `NVIC_ClearPendingIRQ`). -/
  btnIrqPending : Bool
  /-- Enable bit of the CAN-FD IRQ in the NVIC. -/
  canfdIrqEnabled : Bool
  /-- Enable bit of the button IRQ in the NVIC. -/
  btnIrqEnabled : Bool
  /-- Global interrupt enable. -/
  irqEnabled : Bool
  /-- Output level of the user LED. -/
  led : Bool
  /-- Number of calls of `Cy_GPIO_Inv` on the user LED. -/
  ledInv : Nat
  /-- Text written to the UART by `printf`. -/
  uart : String
  /-- Calls of `Cy_CANFD_UpdateAndTransmitMsgBuffer`, oldest first. -/
  txLog : List TxRequest
  deriving DecidableEq, Repr

/-- The `r0_f` part of a receive descriptor (fields read by the callback). -/
structure cy_stc_canfd_r0_t where
  id : Nat
  rtr : Nat

/-- The `r1_f` part of a receive descriptor (field read by the callback). -/
structure cy_stc_canfd_r1_t where
  dlc : Nat

/-- Receive descriptor handed to the callback by the driver. -/
structure cy_stc_canfd_rx_buffer_t where
  r0_f : cy_stc_canfd_r0_t
  r1_f : cy_stc_canfd_r1_t
  /-- Words behind the pointer `data_area_f`. -/
  data_area_f : Nat → Nat

/-- The initialiser of `canfd_dataBuffer`: designated initialisers, the array
is as long as the largest index requires. -/
def canfd_dataBuffer_init : List Nat :=
  ((List.replicate (max CANFD_DATA_0 CANFD_DATA_1 + 1) 0).set CANFD_DATA_0 0x04030201).set
    CANFD_DATA_1 0x08070605

/-- State at reset: static initialisers applied, nothing written or sent yet.
The generated descriptor content and the LED level are not fixed by `main.c`. -/
def resetState (cfgId : Nat) (cfgData : List Nat) (led : Bool) : State where
  ButtonIntrFlag := false
  canfd_dataBuffer := canfd_dataBuffer_init
  T0_id := cfgId
  data_area_f := DataPtr.configDefault
  configData := cfgData
  btnPinIntr := false
  btnIrqPending := false
  canfdIrqEnabled := false
  btnIrqEnabled := false
  irqEnabled := false
  led := led
  ledInv := 0
  uart := ""
  txLog := []

/-! ## External calls -/

/-- Effect of `printf` with the already formatted text. -/
def printf (s : State) (text : String) : State :=
  { s with uart := s.uart ++ text }

/-- Words the transmit descriptor points to. -/
def txData (s : State) : List Nat :=
  match s.data_area_f with
  | DataPtr.configDefault => s.configData
  | DataPtr.canfd_dataBuffer => s.canfd_dataBuffer

/-- The driver call `Cy_CANFD_UpdateAndTransmitMsgBuffer(CANFD_HW, chan,
&CANFD_txBuffer_0, index, &canfd_context)`: the request is recorded; the
descriptor is passed read-only. -/
def Cy_CANFD_UpdateAndTransmitMsgBuffer (chan index : Nat) (s : State) : State :=
  { s with txLog := s.txLog ++ [{ chan := chan, index := index, id := s.T0_id, data := txData s }] }

/-- The call `Cy_GPIO_Inv(CYBSP_USER_LED_PORT, CYBSP_USER_LED_PIN)`. -/
def Cy_GPIO_Inv (s : State) : State :=
  { s with led := !s.led, ledInv := s.ledInv + 1 }

/-- The call `Cy_GPIO_ClearInterrupt(CYBSP_USER_BTN_PORT, CYBSP_USER_BTN_PIN)`. -/
def Cy_GPIO_ClearInterrupt (s : State) : State :=
  { s with btnPinIntr := false }

/-- The call `NVIC_ClearPendingIRQ(CYBSP_USER_BTN_IRQ)`. -/
def NVIC_ClearPendingIRQ (s : State) : State :=
  { s with btnIrqPending := false }

/-! ## `isr_button` -/

/-- The button interrupt handler. -/
def isr_button (s : State) : State :=
  let s := Cy_GPIO_ClearInterrupt s
  let s := NVIC_ClearPendingIRQ s
  { s with ButtonIntrFlag := true }

/-! ## Body of the `for(;;)` loop of `main` -/

/-- One iteration of the loop; `status` is what the driver returns if it is
called. The assignment to `status` is the last use of that variable. -/
def main_loop_body (status : Nat) (s : State) : State :=
  if true = s.ButtonIntrFlag then
    let s := Cy_CANFD_UpdateAndTransmitMsgBuffer CANFD_HW_CHANNEL CANFD_BUFFER_INDEX s
    let _status := status
    let s := printf s ("CANFD Frame sent from Node-" ++ fmt_d USE_CANFD_NODE ++ "\r\n\r\n")
    { s with ButtonIntrFlag := false }
  else s

/-! ## `canfd_rx_callback` -/

/-- Local array `uint8_t canfd_data_buffer[CANFD_DLC]` of the callback, with
the record of the accesses made to it. A cell holds `none` until it is
written. An access outside the array, or a read of an unwritten cell, has no
defined result: the run stops there (`fault`). -/
structure Locals where
  canfd_data_buffer : List (Option Nat)
  /-- Indices accessed so far, in program order. -/
  touched : List Nat
  fault : Bool

/-- The local array on entry to the callback. -/
def Locals.entry : Locals :=
  { canfd_data_buffer := List.replicate CANFD_DLC none, touched := [], fault := false }

/-- The call `memcpy(canfd_data_buffer, src, count)`: `n` bytes remain, the
next one goes to index `k`. -/
def memcpy (src : Nat → Nat) : Nat → Nat → Locals → Locals
  | 0, _, l => l
  | n + 1, k, l =>
    if k < CANFD_DLC then
      memcpy src n (k + 1)
        { l with canfd_data_buffer := l.canfd_data_buffer.set k (some (memByte src k)),
                 touched := l.touched ++ [k] }
    else
      { l with touched := l.touched ++ [k], fault := true }

/-- The logging loop `for (uint8_t msg_idx = 0U; msg_idx < canfd_dlc; msg_idx++)`
from the iteration with counter value `msg_idx` on. -/
def rxLogLoop (canfd_dlc : Nat) (msg_idx : Nat) (l : Locals) (s : State) : Locals × State :=
  if msg_idx < canfd_dlc then
    if _h : msg_idx < CANFD_DLC then
      match l.canfd_data_buffer.getD msg_idx none with
      | some b =>
        rxLogLoop canfd_dlc (uint8 (msg_idx + 1)) { l with touched := l.touched ++ [msg_idx] }
          (printf s (" " ++ fmt_d (b : Int) ++ " "))
      | none => ({ l with touched := l.touched ++ [msg_idx], fault := true }, s)
    else ({ l with touched := l.touched ++ [msg_idx], fault := true }, s)
  else (l, s)
termination_by CANFD_DLC - msg_idx
decreasing_by
  simp only [CANFD_DLC, uint8] at *
  omega

/-- Result of one invocation of the callback. -/
structure RxOutcome where
  /-- State reached (at the return, or at the access where the run stopped). -/
  state : State
  /-- Indices of `canfd_data_buffer` accessed, in program order. -/
  touched : List Nat
  /-- Whether the run stopped at an access without defined result. -/
  fault : Bool

/-- The receive callback. The LED inversion and the first line of the log come
before the copy into the local array, so they are part of the state reached
also when the copy stops at an access outside the array. -/
def canfd_rx_callback (msg_valid : Bool) (msg_buf_fifo_num : Nat)
    (canfd_rx_buf : cy_stc_canfd_rx_buffer_t) (s : State) : RxOutcome :=
  let _fifo := msg_buf_fifo_num
  if true = msg_valid then
    if CY_CANFD_RTR_DATA_FRAME = canfd_rx_buf.r0_f.rtr then
      let s := Cy_GPIO_Inv s
      let canfd_dlc := uint32 canfd_rx_buf.r1_f.dlc
      let canfd_id := uint32 canfd_rx_buf.r0_f.id
      let s := printf s (fmt_d (toInt32 canfd_dlc) ++ " bytes received from Node-"
        ++ fmt_d (toInt32 canfd_id) ++ " with identifier " ++ fmt_d (toInt32 canfd_id)
        ++ "\r\n\r\n")
      let l := memcpy canfd_rx_buf.data_area_f canfd_dlc 0 Locals.entry
      if l.fault then { state := s, touched := l.touched, fault := true }
      else
        let s := printf s "Rx Data : "
        let r := rxLogLoop canfd_dlc 0 l s
        if r.1.fault then { state := r.2, touched := r.1.touched, fault := true }
        else { state := printf r.2 "\r\n\r\n", touched := r.1.touched, fault := false }
    else { state := s, touched := [], fault := false }
  else { state := s, touched := [], fault := false }

/-! ## `main` up to the loop, and the running system -/

/-- Results of the external calls made by `main` before the loop. -/
structure InitEnv where
  cybsp_init : Nat
  cy_retarget_io_init : Nat
  /-- Status of `Cy_SysInt_Init(&canfd_irq_cfg, &isr_canfd)`. -/
  sysint_canfd : Nat
  /-- Status of `Cy_SysInt_Init(&switch_intr_config, isr_button)`. -/
  sysint_button : Nat
  Cy_CANFD_Init : Nat

/-- Where the thread of `main` is. -/
inductive Phase
  /-- Stopped in `CY_ASSERT(0)`. -/
  | halted
  /-- Inside `for(;;)`. -/
  | looping
  /-- A handler ran into an access without defined result. -/
  | undefined
  deriving DecidableEq, Repr

/-- The running system: where `main` is, and the state. -/
structure Sys where
  phase : Phase
  st : State

/-- Modelled from the spec: `CY_ASSERT(0)` (declared in the utility headers) is
an unconditional halt. -/
def CY_ASSERT_0 (s : State) : Sys := { phase := Phase.halted, st := s }

/-- The separator line printed by `main`: 63 characters `=` and a line end. -/
def banner : String := String.mk (List.replicate 63 '=') ++ "\r\n"

/-- The function `main` from its entry to the entry of `for(;;)`. -/
def main (env : InitEnv) (s : State) : Sys :=
  let result := env.cybsp_init
  if result ≠ CY_RSLT_SUCCESS then CY_ASSERT_0 s
  else
    let result := env.cy_retarget_io_init
    if result ≠ CY_RSLT_SUCCESS then CY_ASSERT_0 s
    else
      let s := printf s banner
      let s := printf s "Welcome to CANFD example\r\n"
      let s := printf s (banner ++ "\n")
      let s := printf s banner
      let s := printf s ("CANFD Node-" ++ fmt_d USE_CANFD_NODE ++ "\r\n")
      let s := printf s (banner ++ "\n")
      let _void := env.sysint_canfd
      let s := { s with canfdIrqEnabled := true }
      let _unused := env.sysint_button
      let s := { s with btnIrqEnabled := true }
      let s := { s with irqEnabled := true }
      let status := env.Cy_CANFD_Init
      if status ≠ CY_CANFD_SUCCESS then CY_ASSERT_0 s
      else
        let s :=
          if USE_CANFD_NODE = CANFD_NODE_1 then { s with T0_id := USE_CANFD_NODE }
          else if USE_CANFD_NODE = CANFD_NODE_2 then { s with T0_id := USE_CANFD_NODE }
          else s
        let s := { s with data_area_f := DataPtr.canfd_dataBuffer }
        { phase := Phase.looping, st := s }

/-- What can happen next: the button handler runs, the loop body runs once
(with the status the driver would return), or the driver invokes the receive
callback. -/
inductive Event
  | button
  | loopIter (status : Nat)
  | rx (msg_valid : Bool) (msg_buf_fifo_num : Nat) (canfd_rx_buf : cy_stc_canfd_rx_buffer_t)

/-- One event. The loop body runs only while `main` is in the loop; nothing
runs after a handler stopped at an undefined access. -/
def step (e : Event) (y : Sys) : Sys :=
  match y.phase with
  | Phase.undefined => y
  | ph =>
    match e with
    | Event.button => { y with st := isr_button y.st }
    | Event.loopIter status =>
      if ph = Phase.looping then { y with st := main_loop_body status y.st } else y
    | Event.rx v f b =>
      let r := canfd_rx_callback v f b y.st
      { phase := if r.fault then Phase.undefined else ph, st := r.state }

/-- A sequence of events, first event first. -/
def run : List Event → Sys → Sys
  | [], y => y
  | e :: es, y => run es (step e y)

/-- Number of button-handler invocations in a sequence of events. -/
def presses : List Event → Nat
  | [] => 0
  | Event.button :: es => presses es + 1
  | _ :: es => presses es

/-- Number of transmit requests made so far. -/
def transmits (s : State) : Nat := s.txLog.length

/-- The handler `isr_button` invoked `k` times in a row. -/
def pressTimes : Nat → State → State
  | 0, s => s
  | k + 1, s => pressTimes k (isr_button s)

/-! ## Vocabulary of the statements -/

/-- Text of the logging loop for the bytes at indices `j, j+1, ..., j+m-1`. -/
def rxDataText (src : Nat → Nat) (j m : Nat) : String :=
  ((List.range' j m).map (fun k => " " ++ Nat.repr (memByte src k) ++ " ")).foldr
    (fun a b => a ++ b) ""

/-- First line of the receive log for the local values `canfd_dlc`, `canfd_id`. -/
def rxHeader (canfd_dlc canfd_id : Nat) : String :=
  fmt_d (toInt32 canfd_dlc) ++ " bytes received from Node-"
    ++ fmt_d (toInt32 canfd_id) ++ " with identifier " ++ fmt_d (toInt32 canfd_id)
    ++ "\r\n\r\n"

/-- The transmit descriptor and everything sent so far carry the identifier of
the node and the application payload. -/
def TxInv (s : State) : Prop :=
  s.T0_id = USE_CANFD_NODE ∧ s.data_area_f = DataPtr.canfd_dataBuffer ∧
  s.canfd_dataBuffer = canfd_dataBuffer_init ∧
  ∀ r ∈ s.txLog, r.chan = CANFD_HW_CHANNEL ∧ r.index = CANFD_BUFFER_INDEX ∧
    r.id = USE_CANFD_NODE ∧ r.data = canfd_dataBuffer_init

/-- What a pending flag is still worth: one transmit request. -/
def pendingCount (s : State) : Nat := if s.ButtonIntrFlag then 1 else 0

/-! ## Auxiliary facts -/

theorem fmt_d_ofNat (n : Nat) : fmt_d (n : Int) = Nat.repr n := by
  unfold fmt_d
  have h : ¬ ((n : Int) < 0) := by omega
  simp [h]

theorem toInt32_uint32_of_lt (n : Nat) (h : n < 2 ^ 31) : toInt32 (uint32 n) = (n : Int) := by
  unfold toInt32 uint32
  have h1 : n % 2 ^ 32 = n := Nat.mod_eq_of_lt (by omega)
  simp only [Nat.mod_mod, h1, if_pos h]

theorem printf_empty (s : State) : printf s "" = s := by
  cases s
  simp [printf]

theorem printf_printf (s : State) (a b : String) :
    printf (printf s a) b = printf s (a ++ b) := by
  simp [printf, String.append_assoc]

theorem memcpy_ok (src : Nat → Nat) (n : Nat) : ∀ (k : Nat) (l : Locals),
    k + n ≤ CANFD_DLC →
    (memcpy src n k l).touched = l.touched ++ List.range' k n ∧
    (memcpy src n k l).fault = l.fault ∧
    (memcpy src n k l).canfd_data_buffer.length = l.canfd_data_buffer.length ∧
    ∀ j, (memcpy src n k l).canfd_data_buffer.getD j none =
      if k ≤ j ∧ j < k + n ∧ j < l.canfd_data_buffer.length then some (memByte src j)
      else l.canfd_data_buffer.getD j none := by
  induction n with
  | zero =>
    intro k l _
    refine ⟨by simp [memcpy], rfl, rfl, ?_⟩
    intro j
    have : ¬ (k ≤ j ∧ j < k + 0 ∧ j < l.canfd_data_buffer.length) := by omega
    simp only [memcpy]
    rw [if_neg this]
  | succ n ih =>
    intro k l hk
    have hk1 : k < CANFD_DLC := by omega
    have hk2 : (k + 1) + n ≤ CANFD_DLC := by omega
    obtain ⟨h1, h2, h3, h4⟩ := ih (k + 1)
      { l with canfd_data_buffer := l.canfd_data_buffer.set k (some (memByte src k)),
               touched := l.touched ++ [k] } hk2
    simp only [memcpy, if_pos hk1]
    refine ⟨?_, ?_, ?_, ?_⟩
    · rw [h1]; simp [List.range']
    · rw [h2]
    · rw [h3]; simp
    · intro j
      rw [h4 j]
      simp only [List.length_set]
      by_cases hj : j = k
      · subst hj
        by_cases hl : j < l.canfd_data_buffer.length
        · have c1 : ¬ (j + 1 ≤ j ∧ j < j + 1 + n ∧ j < l.canfd_data_buffer.length) := by omega
          have c2 : (j ≤ j ∧ j < j + (n + 1) ∧ j < l.canfd_data_buffer.length) := by omega
          simp [c1, c2, List.getD_eq_getElem?_getD, List.getElem?_set, hl]
        · have c1 : ¬ (j + 1 ≤ j ∧ j < j + 1 + n ∧ j < l.canfd_data_buffer.length) := by omega
          have c2 : ¬ (j ≤ j ∧ j < j + (n + 1) ∧ j < l.canfd_data_buffer.length) := by omega
          have hnone : l.canfd_data_buffer[j]? = none :=
            List.getElem?_eq_none (Nat.le_of_not_lt hl)
          simp [c1, c2, List.getD_eq_getElem?_getD, List.getElem?_set, hl, hnone]
      · by_cases c : (k + 1 ≤ j ∧ j < k + 1 + n ∧ j < l.canfd_data_buffer.length)
        · have c2 : (k ≤ j ∧ j < k + (n + 1) ∧ j < l.canfd_data_buffer.length) := by omega
          simp [c, c2]
        · have c2 : ¬ (k ≤ j ∧ j < k + (n + 1) ∧ j < l.canfd_data_buffer.length) := by omega
          have hne : ¬ k = j := fun e => hj e.symm
          simp [c, c2, List.getD_eq_getElem?_getD, List.getElem?_set, hne]

theorem memcpy_over (src : Nat → Nat) (n : Nat) : ∀ (k : Nat) (l : Locals),
    k ≤ CANFD_DLC → CANFD_DLC < k + n →
    (memcpy src n k l).fault = true ∧
    (memcpy src n k l).touched = l.touched ++ List.range' k (CANFD_DLC - k + 1) := by
  induction n with
  | zero => intro k l h1 h2; omega
  | succ n ih =>
    intro k l h1 h2
    by_cases hk : k < CANFD_DLC
    · obtain ⟨f1, f2⟩ := ih (k + 1)
        { l with canfd_data_buffer := l.canfd_data_buffer.set k (some (memByte src k)),
                 touched := l.touched ++ [k] } (by omega) (by omega)
      simp only [memcpy, if_pos hk]
      refine ⟨f1, ?_⟩
      rw [f2]
      have e : CANFD_DLC - k + 1 = (CANFD_DLC - (k + 1) + 1) + 1 := by omega
      rw [e]
      simp [List.range']
    · have e : CANFD_DLC - k + 1 = 1 := by omega
      simp only [memcpy, if_neg hk, e]
      simp [List.range']

theorem rxDataText_succ (src : Nat → Nat) (j m : Nat) :
    rxDataText src j (m + 1) =
      (" " ++ Nat.repr (memByte src j) ++ " ") ++ rxDataText src (j + 1) m := by
  simp [rxDataText, List.range']

theorem rxLogLoop_ok (src : Nat → Nat) (n : Nat) (hn : n ≤ CANFD_DLC) :
    ∀ (m j : Nat) (l : Locals) (s : State), j + m = n →
    (∀ i, j ≤ i → i < n → l.canfd_data_buffer.getD i none = some (memByte src i)) →
    rxLogLoop n j l s =
      ({ l with touched := l.touched ++ List.range' j m }, printf s (rxDataText src j m)) := by
  intro m
  induction m with
  | zero =>
    intro j l s hj _
    have h : ¬ j < n := by omega
    rw [rxLogLoop, if_neg h]
    simp [rxDataText, printf_empty]
  | succ m ih =>
    intro j l s hj hcells
    have h1 : j < n := by omega
    have h2 : j < CANFD_DLC := by omega
    have h3 : uint8 (j + 1) = j + 1 := by
      unfold uint8
      apply Nat.mod_eq_of_lt
      simp only [CANFD_DLC] at h2
      omega
    rw [rxLogLoop, if_pos h1, dif_pos h2, hcells j (Nat.le_refl j) h1]
    simp only [h3]
    rw [ih (j + 1) { l with touched := l.touched ++ [j] } _ (by omega)
      (fun i hi hi2 => hcells i (by omega) hi2)]
    rw [printf_printf, rxDataText_succ, fmt_d_ofNat]
    simp [List.range']

theorem rx_data_frame_ok (f : Nat) (rx : cy_stc_canfd_rx_buffer_t) (s : State)
    (hrtr : rx.r0_f.rtr = CY_CANFD_RTR_DATA_FRAME)
    (hn : uint32 rx.r1_f.dlc ≤ CANFD_DLC) :
    canfd_rx_callback true f rx s =
      { state := printf (Cy_GPIO_Inv s)
          (rxHeader (uint32 rx.r1_f.dlc) (uint32 rx.r0_f.id) ++ "Rx Data : "
            ++ rxDataText rx.data_area_f 0 (uint32 rx.r1_f.dlc) ++ "\r\n\r\n"),
        touched := List.range' 0 (uint32 rx.r1_f.dlc) ++ List.range' 0 (uint32 rx.r1_f.dlc),
        fault := false } := by
  obtain ⟨m1, m2, m3, m4⟩ :=
    memcpy_ok rx.data_area_f (uint32 rx.r1_f.dlc) 0 Locals.entry (by omega)
  have hcells : ∀ i, 0 ≤ i → i < uint32 rx.r1_f.dlc →
      (memcpy rx.data_area_f (uint32 rx.r1_f.dlc) 0 Locals.entry).canfd_data_buffer.getD i none
        = some (memByte rx.data_area_f i) := by
    intro i _ hi
    rw [m4 i]
    have : 0 ≤ i ∧ i < 0 + uint32 rx.r1_f.dlc ∧ i < Locals.entry.canfd_data_buffer.length := by
      refine ⟨Nat.zero_le _, by omega, ?_⟩
      simp only [Locals.entry, List.length_replicate]
      omega
    rw [if_pos this]
  have hloop := rxLogLoop_ok rx.data_area_f (uint32 rx.r1_f.dlc) hn (uint32 rx.r1_f.dlc) 0
    (memcpy rx.data_area_f (uint32 rx.r1_f.dlc) 0 Locals.entry)
    (printf (printf (Cy_GPIO_Inv s) (rxHeader (uint32 rx.r1_f.dlc) (uint32 rx.r0_f.id)))
      "Rx Data : ") (by omega) hcells
  have hf : (memcpy rx.data_area_f (uint32 rx.r1_f.dlc) 0 Locals.entry).fault = false := by
    rw [m2]; rfl
  simp only [rxHeader] at hloop ⊢
  simp only [canfd_rx_callback, hrtr, if_true]
  rw [hf]
  simp only [Bool.false_eq_true, if_false]
  rw [hloop]
  simp only [hf, m1, Bool.false_eq_true, if_false, printf_printf, String.append_assoc]
  simp [Locals.entry]

theorem rx_data_frame_over (f : Nat) (rx : cy_stc_canfd_rx_buffer_t) (s : State)
    (hrtr : rx.r0_f.rtr = CY_CANFD_RTR_DATA_FRAME)
    (hn : CANFD_DLC < uint32 rx.r1_f.dlc) :
    canfd_rx_callback true f rx s =
      { state := printf (Cy_GPIO_Inv s) (rxHeader (uint32 rx.r1_f.dlc) (uint32 rx.r0_f.id)),
        touched := List.range' 0 (CANFD_DLC + 1),
        fault := true } := by
  obtain ⟨m1, m2⟩ :=
    memcpy_over rx.data_area_f (uint32 rx.r1_f.dlc) 0 Locals.entry (Nat.zero_le _) (by omega)
  simp only [canfd_rx_callback, hrtr, if_true, rxHeader]
  rw [m1]
  simp only [if_true, m2]
  simp [Locals.entry]

theorem rx_not_data_frame (v : Bool) (f : Nat) (rx : cy_stc_canfd_rx_buffer_t) (s : State)
    (h : ¬ (v = true ∧ rx.r0_f.rtr = CY_CANFD_RTR_DATA_FRAME)) :
    canfd_rx_callback v f rx s = { state := s, touched := [], fault := false } := by
  unfold canfd_rx_callback
  cases v with
  | false => simp
  | true =>
    have h2 : ¬ (CY_CANFD_RTR_DATA_FRAME = rx.r0_f.rtr) := fun e => h ⟨rfl, e.symm⟩
    simp [h2]

theorem rx_state_cases (v : Bool) (f : Nat) (rx : cy_stc_canfd_rx_buffer_t) (s : State) :
    (canfd_rx_callback v f rx s).state = s ∨
    ∃ t, (canfd_rx_callback v f rx s).state = printf (Cy_GPIO_Inv s) t := by
  by_cases h : v = true ∧ rx.r0_f.rtr = CY_CANFD_RTR_DATA_FRAME
  · obtain ⟨hv, hr⟩ := h
    subst hv
    by_cases hn : uint32 rx.r1_f.dlc ≤ CANFD_DLC
    · exact Or.inr ⟨_, by rw [rx_data_frame_ok f rx s hr hn]⟩
    · exact Or.inr ⟨_, by rw [rx_data_frame_over f rx s hr (by omega)]⟩
  · exact Or.inl (by rw [rx_not_data_frame v f rx s h])

theorem rxHeader_length_pos (a b : Nat) : 0 < (rxHeader a b).length := by
  unfold rxHeader
  simp only [String.length_append]
  have : (" bytes received from Node-" : String).length = 26 := by decide
  omega

theorem rx_data_frame_effect (f : Nat) (rx : cy_stc_canfd_rx_buffer_t) (s : State)
    (hrtr : rx.r0_f.rtr = CY_CANFD_RTR_DATA_FRAME) :
    ∃ t, 0 < t.length ∧ (canfd_rx_callback true f rx s).state = printf (Cy_GPIO_Inv s) t := by
  by_cases hn : uint32 rx.r1_f.dlc ≤ CANFD_DLC
  · refine ⟨_, ?_, by rw [rx_data_frame_ok f rx s hrtr hn]⟩
    have := rxHeader_length_pos (uint32 rx.r1_f.dlc) (uint32 rx.r0_f.id)
    simp only [String.length_append]
    omega
  · exact ⟨_, rxHeader_length_pos _ _, by rw [rx_data_frame_over f rx s hrtr (by omega)]⟩

theorem rx_frame (v : Bool) (f : Nat) (rx : cy_stc_canfd_rx_buffer_t) (s : State) :
    (canfd_rx_callback v f rx s).state =
      { s with led := (canfd_rx_callback v f rx s).state.led,
               ledInv := (canfd_rx_callback v f rx s).state.ledInv,
               uart := (canfd_rx_callback v f rx s).state.uart } := by
  rcases rx_state_cases v f rx s with h | ⟨t, h⟩
  · rw [h]
  · rw [h]; rfl

theorem rx_txLog (v : Bool) (f : Nat) (rx : cy_stc_canfd_rx_buffer_t) (s : State) :
    (canfd_rx_callback v f rx s).state.txLog = s.txLog := by
  rw [rx_frame v f rx s]

theorem rx_flag (v : Bool) (f : Nat) (rx : cy_stc_canfd_rx_buffer_t) (s : State) :
    (canfd_rx_callback v f rx s).state.ButtonIntrFlag = s.ButtonIntrFlag := by
  rw [rx_frame v f rx s]

theorem loop_body_idle (status : Nat) (s : State) (h : s.ButtonIntrFlag = false) :
    main_loop_body status s = s := by
  simp [main_loop_body, h]

theorem loop_body_pending (status : Nat) (s : State) (h : s.ButtonIntrFlag = true) :
    main_loop_body status s =
      { s with txLog := s.txLog ++ [{ chan := CANFD_HW_CHANNEL, index := CANFD_BUFFER_INDEX,
                                       id := s.T0_id, data := txData s }],
               uart := s.uart ++ "CANFD Frame sent from Node-1\r\n\r\n",
               ButtonIntrFlag := false } := by
  have e : "CANFD Frame sent from Node-" ++ fmt_d USE_CANFD_NODE ++ "\r\n\r\n"
      = "CANFD Frame sent from Node-1\r\n\r\n" := by decide
  simp only [main_loop_body, h, if_true, e, printf, Cy_CANFD_UpdateAndTransmitMsgBuffer]

theorem step_not_looping (e : Event) (y : Sys) (h : y.phase ≠ Phase.looping) :
    (step e y).phase ≠ Phase.looping ∧ (step e y).st.txLog = y.st.txLog := by
  obtain ⟨ph, st⟩ := y
  cases ph with
  | looping => exact absurd rfl h
  | undefined => exact ⟨by simp [step], by simp [step]⟩
  | halted =>
    cases e with
    | button => exact ⟨by simp [step], by simp [step, isr_button, Cy_GPIO_ClearInterrupt,
        NVIC_ClearPendingIRQ]⟩
    | loopIter status => exact ⟨by simp [step], by simp [step]⟩
    | rx v f b =>
      refine ⟨?_, ?_⟩
      · simp only [step]
        split <;> simp
      · simp only [step]
        exact rx_txLog v f b st

theorem run_not_looping (evs : List Event) : ∀ (y : Sys), y.phase ≠ Phase.looping →
    (run evs y).phase ≠ Phase.looping ∧ (run evs y).st.txLog = y.st.txLog := by
  induction evs with
  | nil => intro y h; exact ⟨h, rfl⟩
  | cons e es ih =>
    intro y h
    obtain ⟨h1, h2⟩ := step_not_looping e y h
    obtain ⟨h3, h4⟩ := ih (step e y) h1
    exact ⟨h3, by rw [run, h4, h2]⟩

theorem isr_button_TxInv (s : State) (h : TxInv s) : TxInv (isr_button s) := h

theorem loop_body_TxInv (status : Nat) (s : State) (h : TxInv s) :
    TxInv (main_loop_body status s) := by
  cases hf : s.ButtonIntrFlag with
  | false => rw [loop_body_idle status s hf]; exact h
  | true =>
    rw [loop_body_pending status s hf]
    obtain ⟨h1, h2, h3, h4⟩ := h
    refine ⟨h1, h2, h3, ?_⟩
    intro r hr
    simp only [List.mem_append, List.mem_singleton] at hr
    rcases hr with hr | hr
    · exact h4 r hr
    · subst hr
      refine ⟨rfl, rfl, h1, ?_⟩
      simp only [txData, h2, h3]

theorem rx_TxInv (v : Bool) (f : Nat) (rx : cy_stc_canfd_rx_buffer_t) (s : State)
    (h : TxInv s) : TxInv (canfd_rx_callback v f rx s).state := by
  rw [rx_frame v f rx s]
  exact h

theorem step_TxInv (e : Event) (y : Sys) (h : TxInv y.st) : TxInv (step e y).st := by
  obtain ⟨ph, st⟩ := y
  cases ph with
  | undefined => exact h
  | halted =>
    cases e with
    | button => exact isr_button_TxInv st h
    | loopIter status => exact h
    | rx v f b => exact rx_TxInv v f b st h
  | looping =>
    cases e with
    | button => exact isr_button_TxInv st h
    | loopIter status => exact loop_body_TxInv status st h
    | rx v f b => exact rx_TxInv v f b st h

theorem run_TxInv (evs : List Event) : ∀ (y : Sys), TxInv y.st → TxInv (run evs y).st := by
  induction evs with
  | nil => intro y h; exact h
  | cons e es ih => intro y h; exact ih (step e y) (step_TxInv e y h)

theorem main_success (env : InitEnv) (s : State)
    (h1 : env.cybsp_init = CY_RSLT_SUCCESS) (h2 : env.cy_retarget_io_init = CY_RSLT_SUCCESS)
    (h3 : env.Cy_CANFD_Init = CY_CANFD_SUCCESS) :
    (main env s).phase = Phase.looping ∧
    (main env s).st.T0_id = USE_CANFD_NODE ∧
    (main env s).st.data_area_f = DataPtr.canfd_dataBuffer ∧
    (main env s).st.canfd_dataBuffer = s.canfd_dataBuffer ∧
    (main env s).st.txLog = s.txLog ∧
    (main env s).st.ButtonIntrFlag = s.ButtonIntrFlag := by
  simp [main, h1, h2, h3, printf, USE_CANFD_NODE]

theorem main_failure (env : InitEnv) (s : State)
    (h : env.cybsp_init ≠ CY_RSLT_SUCCESS ∨ env.cy_retarget_io_init ≠ CY_RSLT_SUCCESS ∨
      env.Cy_CANFD_Init ≠ CY_CANFD_SUCCESS) :
    (main env s).phase = Phase.halted ∧ (main env s).st.txLog = s.txLog := by
  by_cases h1 : env.cybsp_init = CY_RSLT_SUCCESS
  · by_cases h2 : env.cy_retarget_io_init = CY_RSLT_SUCCESS
    · have h3 : env.Cy_CANFD_Init ≠ CY_CANFD_SUCCESS := by
        rcases h with h | h | h
        · exact absurd h1 h
        · exact absurd h2 h
        · exact h
      simp [main, h1, h2, h3, printf, CY_ASSERT_0]
    · simp [main, h1, h2, CY_ASSERT_0]
  · simp [main, h1, CY_ASSERT_0]

theorem pressTimes_pos (k : Nat) (hk : 1 ≤ k) (s : State) :
    (pressTimes k s).ButtonIntrFlag = true ∧ (pressTimes k s).txLog = s.txLog := by
  induction k generalizing s with
  | zero => omega
  | succ k ih =>
    cases k with
    | zero => exact ⟨rfl, rfl⟩
    | succ k =>
      have := ih (by omega) (isr_button s)
      exact ⟨this.1, by rw [pressTimes, this.2]; rfl⟩

theorem step_potential (e : Event) (y : Sys) :
    transmits (step e y).st + pendingCount (step e y).st
      ≤ transmits y.st + pendingCount y.st + presses [e] := by
  obtain ⟨ph, st⟩ := y
  have hrx : ∀ v f b, transmits (canfd_rx_callback v f b st).state
      + pendingCount (canfd_rx_callback v f b st).state = transmits st + pendingCount st := by
    intro v f b
    simp only [transmits, pendingCount, rx_txLog, rx_flag]
  have hbtn : transmits (isr_button st) + pendingCount (isr_button st)
      ≤ transmits st + pendingCount st + 1 := by
    have e1 : transmits (isr_button st) = transmits st := rfl
    have e2 : pendingCount (isr_button st) = 1 := rfl
    rw [e1, e2]
    omega
  have hloop : ∀ status, transmits (main_loop_body status st)
      + pendingCount (main_loop_body status st) = transmits st + pendingCount st := by
    intro status
    cases hf : st.ButtonIntrFlag with
    | false => rw [loop_body_idle status st hf]
    | true =>
      rw [loop_body_pending status st hf]
      simp [transmits, pendingCount, hf]
  cases ph with
  | undefined =>
    simp only [step]
    omega
  | halted =>
    cases e with
    | button => simpa [step, presses] using hbtn
    | loopIter status => simp [step, presses]
    | rx v f b => simpa [step, presses] using Nat.le_of_eq (hrx v f b)
  | looping =>
    cases e with
    | button => simpa [step, presses] using hbtn
    | loopIter status => simpa [step, presses] using Nat.le_of_eq (hloop status)
    | rx v f b => simpa [step, presses] using Nat.le_of_eq (hrx v f b)

theorem presses_cons (e : Event) (es : List Event) :
    presses (e :: es) = presses [e] + presses es := by
  cases e <;> simp [presses]; omega

theorem run_potential (evs : List Event) : ∀ (y : Sys),
    transmits (run evs y).st + pendingCount (run evs y).st
      ≤ transmits y.st + pendingCount y.st + presses evs := by
  induction evs with
  | nil => intro y; simp [run, presses]
  | cons e es ih =>
    intro y
    have h1 := ih (step e y)
    have h2 := step_potential e y
    rw [presses_cons]
    simp only [run]
    omega

theorem rx_log_text (f : Nat) (rx : cy_stc_canfd_rx_buffer_t) (s : State)
    (hrtr : rx.r0_f.rtr = CY_CANFD_RTR_DATA_FRAME)
    (hn : rx.r1_f.dlc ≤ 8) (hid : rx.r0_f.id < 2 ^ 31) :
    (canfd_rx_callback true f rx s).fault = false ∧
    (canfd_rx_callback true f rx s).state.led = (!s.led) ∧
    (canfd_rx_callback true f rx s).state.ledInv = s.ledInv + 1 ∧
    (canfd_rx_callback true f rx s).state.uart = s.uart ++
      (Nat.repr rx.r1_f.dlc ++ " bytes received from Node-" ++ Nat.repr rx.r0_f.id
        ++ " with identifier " ++ Nat.repr rx.r0_f.id ++ "\r\n\r\n"
        ++ "Rx Data : " ++ rxDataText rx.data_area_f 0 rx.r1_f.dlc ++ "\r\n\r\n") := by
  have hd : uint32 rx.r1_f.dlc = rx.r1_f.dlc := Nat.mod_eq_of_lt (by omega)
  have hi : uint32 rx.r0_f.id = rx.r0_f.id := Nat.mod_eq_of_lt (by omega)
  have e := rx_data_frame_ok f rx s hrtr (by rw [hd]; exact hn)
  have t1 : toInt32 rx.r1_f.dlc = (rx.r1_f.dlc : Int) := by
    have := toInt32_uint32_of_lt rx.r1_f.dlc (by omega)
    rwa [hd] at this
  have t2 : toInt32 rx.r0_f.id = (rx.r0_f.id : Int) := by
    have := toInt32_uint32_of_lt rx.r0_f.id hid
    rwa [hi] at this
  rw [e]
  refine ⟨rfl, rfl, rfl, ?_⟩
  simp only [printf, Cy_GPIO_Inv, rxHeader, hd, hi, t1, t2, fmt_d_ofNat]

theorem loop_body_frame (status : Nat) (s : State) :
    (main_loop_body status s).T0_id = s.T0_id ∧
    (main_loop_body status s).data_area_f = s.data_area_f ∧
    (main_loop_body status s).canfd_dataBuffer = s.canfd_dataBuffer ∧
    txData (main_loop_body status s) = txData s := by
  cases hf : s.ButtonIntrFlag with
  | false => rw [loop_body_idle status s hf]; exact ⟨rfl, rfl, rfl, rfl⟩
  | true => rw [loop_body_pending status s hf]; exact ⟨rfl, rfl, rfl, rfl⟩

/-! ## The claims -/

/-- Claim C1: one iteration of the loop body with the flag set makes exactly one
transmit request (channel 0, buffer index 0) and leaves the flag false; with the
flag clear it changes nothing; two consecutive iterations starting with the flag
set make exactly one request in total. -/
theorem C1_main_loop_service (status status2 : Nat) (s : State) :
    (s.ButtonIntrFlag = true →
      (∃ r : TxRequest, r.chan = 0 ∧ r.index = 0 ∧
        (main_loop_body status s).txLog = s.txLog ++ [r]) ∧
      (main_loop_body status s).ButtonIntrFlag = false ∧
      transmits (main_loop_body status2 (main_loop_body status s)) = transmits s + 1) ∧
    (s.ButtonIntrFlag = false → main_loop_body status s = s) := by
  refine ⟨fun h => ?_, loop_body_idle status s⟩
  have e := loop_body_pending status s h
  refine ⟨⟨_, ?_, ?_, by rw [e]⟩, by rw [e], ?_⟩
  · rfl
  · rfl
  · rw [loop_body_idle status2 _ (by rw [e]), e]
    simp [transmits]

theorem C1_main_loop_service_witness :
    ((isr_button (resetState 0 [] false)).ButtonIntrFlag = true ∧
      (∃ r : TxRequest, r.chan = 0 ∧ r.index = 0 ∧
        (main_loop_body 0 (isr_button (resetState 0 [] false))).txLog
          = (isr_button (resetState 0 [] false)).txLog ++ [r]) ∧
      (main_loop_body 0 (isr_button (resetState 0 [] false))).ButtonIntrFlag = false ∧
      transmits (main_loop_body 5 (main_loop_body 0 (isr_button (resetState 0 [] false))))
        = transmits (isr_button (resetState 0 [] false)) + 1) ∧
    ((resetState 0 [] false).ButtonIntrFlag = false ∧
      main_loop_body 0 (resetState 0 [] false) = resetState 0 [] false) :=
  ⟨⟨rfl, (C1_main_loop_service 0 5 (isr_button (resetState 0 [] false))).1 rfl⟩,
   ⟨rfl, (C1_main_loop_service 0 5 (resetState 0 [] false)).2 rfl⟩⟩

/-- Claim C2: the receive callback inverts the LED and writes log text exactly
when `msg_valid` is true and the `rtr` field has the data-frame value; in every
other case (invalid message, or a valid remote-transmission request) it leaves
the whole state, LED and UART text included, as it was. -/
theorem C2_rx_gate (v : Bool) (f : Nat) (rx : cy_stc_canfd_rx_buffer_t) (s : State) :
    ((canfd_rx_callback v f rx s).state.led ≠ s.led ↔
      (v = true ∧ rx.r0_f.rtr = CY_CANFD_RTR_DATA_FRAME)) ∧
    ((canfd_rx_callback v f rx s).state.ledInv ≠ s.ledInv ↔
      (v = true ∧ rx.r0_f.rtr = CY_CANFD_RTR_DATA_FRAME)) ∧
    ((canfd_rx_callback v f rx s).state.uart ≠ s.uart ↔
      (v = true ∧ rx.r0_f.rtr = CY_CANFD_RTR_DATA_FRAME)) ∧
    (¬ (v = true ∧ rx.r0_f.rtr = CY_CANFD_RTR_DATA_FRAME) →
      (canfd_rx_callback v f rx s).state = s ∧ (canfd_rx_callback v f rx s).touched = [] ∧
      (canfd_rx_callback v f rx s).fault = false) := by
  by_cases h : v = true ∧ rx.r0_f.rtr = CY_CANFD_RTR_DATA_FRAME
  · obtain ⟨hv, hr⟩ := h
    subst hv
    obtain ⟨t, ht, e⟩ := rx_data_frame_effect f rx s hr
    have hu : s.uart ++ t ≠ s.uart := by
      intro h2
      have h3 := congrArg String.length h2
      rw [String.length_append] at h3
      omega
    refine ⟨?_, ?_, ?_, fun hn => absurd ⟨rfl, hr⟩ hn⟩
    · rw [e]; simp [printf, Cy_GPIO_Inv, hr]
    · rw [e]; simp [printf, Cy_GPIO_Inv, hr]
    · rw [e]; simp [printf, Cy_GPIO_Inv, hr, hu]
  · have e := rx_not_data_frame v f rx s h
    refine ⟨?_, ?_, ?_, fun _ => by rw [e]; exact ⟨rfl, rfl, rfl⟩⟩
    · rw [e]; simp [h]
    · rw [e]; simp [h]
    · rw [e]; simp [h]

theorem C2_rx_gate_witness :
    ¬ (true = true ∧ CY_CANFD_RTR_REMOTE_FRAME = CY_CANFD_RTR_DATA_FRAME) ∧
    (canfd_rx_callback true 0
        { r0_f := { id := 1, rtr := CY_CANFD_RTR_REMOTE_FRAME }, r1_f := { dlc := 8 },
          data_area_f := fun _ => 0 } (resetState 0 [] false)).state = resetState 0 [] false ∧
    (canfd_rx_callback true 0
        { r0_f := { id := 1, rtr := CY_CANFD_RTR_REMOTE_FRAME }, r1_f := { dlc := 8 },
          data_area_f := fun _ => 0 } (resetState 0 [] false)).touched = [] ∧
    (canfd_rx_callback true 0
        { r0_f := { id := 1, rtr := CY_CANFD_RTR_REMOTE_FRAME }, r1_f := { dlc := 8 },
          data_area_f := fun _ => 0 } (resetState 0 [] false)).fault = false :=
  ⟨by decide,
   (C2_rx_gate true 0
      { r0_f := { id := 1, rtr := CY_CANFD_RTR_REMOTE_FRAME }, r1_f := { dlc := 8 },
        data_area_f := fun _ => 0 } (resetState 0 [] false)).2.2.2 (by decide)⟩

/-- Claim C3: for a valid data frame with DLC `n <= 8`, identifier `i` (a CAN
identifier, at most 29 bits) and data area bytes b0..b7, the callback returns
normally, inverts the LED exactly once and appends exactly the text
"n bytes received from Node-i with identifier i", two line ends, "Rx Data : ",
then for k = 0 .. n-1 in increasing order the decimal value of byte k of the
data area between two blanks, then two line ends. In particular, for DLC 8,
identifier 1 and the payload 1, 2, ..., 8 the text appended is
"8 bytes received from Node-1 with identifier 1", two line ends, and
"Rx Data :  1  2  3  4  5  6  7  8 " with two line ends. -/
theorem C3_rx_log_content (f : Nat) (rx : cy_stc_canfd_rx_buffer_t) (s : State)
    (hrtr : rx.r0_f.rtr = CY_CANFD_RTR_DATA_FRAME)
    (hn : rx.r1_f.dlc ≤ 8) (hid : rx.r0_f.id < 2 ^ 29) :
    ((canfd_rx_callback true f rx s).fault = false ∧
      (canfd_rx_callback true f rx s).state.led = (!s.led) ∧
      (canfd_rx_callback true f rx s).state.ledInv = s.ledInv + 1 ∧
      (canfd_rx_callback true f rx s).state.uart = s.uart ++
        (Nat.repr rx.r1_f.dlc ++ " bytes received from Node-" ++ Nat.repr rx.r0_f.id
          ++ " with identifier " ++ Nat.repr rx.r0_f.id ++ "\r\n\r\n"
          ++ "Rx Data : " ++ rxDataText rx.data_area_f 0 rx.r1_f.dlc ++ "\r\n\r\n")) ∧
    (canfd_rx_callback true f
        { r0_f := { id := 1, rtr := CY_CANFD_RTR_DATA_FRAME }, r1_f := { dlc := 8 },
          data_area_f := fun j => [0x04030201, 0x08070605].getD j 0 } s).state.uart =
      s.uart ++
        "8 bytes received from Node-1 with identifier 1\r\n\r\nRx Data :  1  2  3  4  5  6  7  8 \r\n\r\n" := by
  refine ⟨rx_log_text f rx s hrtr hn (by omega), ?_⟩
  have h := (rx_log_text f
    { r0_f := { id := 1, rtr := CY_CANFD_RTR_DATA_FRAME }, r1_f := { dlc := 8 },
      data_area_f := fun j => [0x04030201, 0x08070605].getD j 0 } s rfl (by decide)
      (by decide)).2.2.2
  rw [h]
  exact congrArg (fun t => s.uart ++ t) (by decide)

theorem C3_rx_log_content_witness :
    CY_CANFD_RTR_DATA_FRAME = CY_CANFD_RTR_DATA_FRAME ∧ 8 ≤ 8 ∧ 1 < 2 ^ 29 ∧
    (canfd_rx_callback true 0
        { r0_f := { id := 1, rtr := CY_CANFD_RTR_DATA_FRAME }, r1_f := { dlc := 8 },
          data_area_f := fun j => [0x04030201, 0x08070605].getD j 0 }
        (resetState 0 [] false)).state.led = true ∧
    (canfd_rx_callback true 0
        { r0_f := { id := 1, rtr := CY_CANFD_RTR_DATA_FRAME }, r1_f := { dlc := 8 },
          data_area_f := fun j => [0x04030201, 0x08070605].getD j 0 }
        (resetState 0 [] false)).state.ledInv = 1 ∧
    (canfd_rx_callback true 0
        { r0_f := { id := 1, rtr := CY_CANFD_RTR_DATA_FRAME }, r1_f := { dlc := 8 },
          data_area_f := fun j => [0x04030201, 0x08070605].getD j 0 }
        (resetState 0 [] false)).state.uart =
      "8 bytes received from Node-1 with identifier 1\r\n\r\nRx Data :  1  2  3  4  5  6  7  8 \r\n\r\n" :=
  ⟨rfl, by decide, by decide,
   (C3_rx_log_content 0
      { r0_f := { id := 1, rtr := CY_CANFD_RTR_DATA_FRAME }, r1_f := { dlc := 8 },
        data_area_f := fun j => [0x04030201, 0x08070605].getD j 0 }
      (resetState 0 [] false) rfl (by decide) (by decide)).1.2.1,
   (C3_rx_log_content 0
      { r0_f := { id := 1, rtr := CY_CANFD_RTR_DATA_FRAME }, r1_f := { dlc := 8 },
        data_area_f := fun j => [0x04030201, 0x08070605].getD j 0 }
      (resetState 0 [] false) rfl (by decide) (by decide)).1.2.2.1,
   (C3_rx_log_content 0
      { r0_f := { id := 1, rtr := CY_CANFD_RTR_DATA_FRAME }, r1_f := { dlc := 8 },
        data_area_f := fun j => [0x04030201, 0x08070605].getD j 0 }
      (resetState 0 [] false) rfl (by decide) (by decide)).1.2.2.2.trans (by decide)⟩

/-- Claim C4: after one invocation of `isr_button` the flag is true and the pin
interrupt latch and the NVIC pending bit of the button are clear, whatever the
state before; nothing else changes, and a second invocation gives the same state
as the first. -/
theorem C4_isr_button (s : State) :
    (isr_button s).ButtonIntrFlag = true ∧
    (isr_button s).btnPinIntr = false ∧
    (isr_button s).btnIrqPending = false ∧
    isr_button s = { s with ButtonIntrFlag := true, btnPinIntr := false, btnIrqPending := false } ∧
    isr_button (isr_button s) = isr_button s :=
  ⟨rfl, rfl, rfl, rfl, rfl⟩

/-- Claim C5 (amended): if `cybsp_init`, `cy_retarget_io_init` or
`Cy_CANFD_Init` reports failure, `main` halts before the loop: it never enters
the loop afterwards and no transmit request is ever made, whatever handlers
run; the status of the two `Cy_SysInt_Init` calls is discarded, and `main`
enters the loop exactly when the three checked calls succeed. -/
theorem C5_init_failure_halts (env : InitEnv) (s : State) (evs : List Event) :
    ((env.cybsp_init ≠ CY_RSLT_SUCCESS ∨ env.cy_retarget_io_init ≠ CY_RSLT_SUCCESS ∨
        env.Cy_CANFD_Init ≠ CY_CANFD_SUCCESS) →
      (main env s).phase = Phase.halted ∧
      (run evs (main env s)).phase ≠ Phase.looping ∧
      (run evs (main env s)).st.txLog = s.txLog) ∧
    ((main env s).phase = Phase.looping ↔
      (env.cybsp_init = CY_RSLT_SUCCESS ∧ env.cy_retarget_io_init = CY_RSLT_SUCCESS ∧
        env.Cy_CANFD_Init = CY_CANFD_SUCCESS)) := by
  refine ⟨fun h => ?_, ?_⟩
  · obtain ⟨h1, h2⟩ := main_failure env s h
    have h3 : (main env s).phase ≠ Phase.looping := by rw [h1]; decide
    obtain ⟨h4, h5⟩ := run_not_looping evs (main env s) h3
    exact ⟨h1, h4, by rw [h5, h2]⟩
  · constructor
    · intro hl
      by_contra hc
      have hfail : env.cybsp_init ≠ CY_RSLT_SUCCESS ∨
          env.cy_retarget_io_init ≠ CY_RSLT_SUCCESS ∨
          env.Cy_CANFD_Init ≠ CY_CANFD_SUCCESS := by
        by_cases a : env.cybsp_init = CY_RSLT_SUCCESS
        · by_cases b : env.cy_retarget_io_init = CY_RSLT_SUCCESS
          · exact Or.inr (Or.inr (fun c => hc ⟨a, b, c⟩))
          · exact Or.inr (Or.inl b)
        · exact Or.inl a
      have := (main_failure env s hfail).1
      rw [this] at hl
      exact absurd hl (by decide)
    · intro h
      exact (main_success env s h.1 h.2.1 h.2.2).1

theorem C5_init_failure_halts_witness :
    ((0 : Nat) ≠ CY_RSLT_SUCCESS ∨ (0 : Nat) ≠ CY_RSLT_SUCCESS ∨ (1 : Nat) ≠ CY_CANFD_SUCCESS) ∧
    (main { cybsp_init := 0, cy_retarget_io_init := 0, sysint_canfd := 0, sysint_button := 0,
            Cy_CANFD_Init := 1 } (resetState 0 [] false)).phase = Phase.halted ∧
    (run [Event.button, Event.loopIter 0]
      (main { cybsp_init := 0, cy_retarget_io_init := 0, sysint_canfd := 0, sysint_button := 0,
              Cy_CANFD_Init := 1 } (resetState 0 [] false))).phase ≠ Phase.looping ∧
    (run [Event.button, Event.loopIter 0]
      (main { cybsp_init := 0, cy_retarget_io_init := 0, sysint_canfd := 0, sysint_button := 0,
              Cy_CANFD_Init := 1 } (resetState 0 [] false))).st.txLog
      = (resetState 0 [] false).txLog :=
  ⟨by decide,
   (C5_init_failure_halts
      { cybsp_init := 0, cy_retarget_io_init := 0, sysint_canfd := 0, sysint_button := 0,
        Cy_CANFD_Init := 1 } (resetState 0 [] false) [Event.button, Event.loopIter 0]).1
      (by decide)⟩

/-- Counterexample to claim C5 as stated: when a `Cy_SysInt_Init` call reports
failure (the one for the CAN-FD vector, or the one for the button vector) and
the checked calls succeed, `main` enters the loop, and after a button press the
next iteration makes a transmit request. -/
theorem C5_counterexample :
    (main { cybsp_init := 0, cy_retarget_io_init := 0, sysint_canfd := 1, sysint_button := 0,
            Cy_CANFD_Init := 0 } (resetState 0 [] false)).phase = Phase.looping ∧
    (main { cybsp_init := 0, cy_retarget_io_init := 0, sysint_canfd := 0, sysint_button := 1,
            Cy_CANFD_Init := 0 } (resetState 0 [] false)).phase = Phase.looping ∧
    transmits (run [Event.button, Event.loopIter 0]
      (main { cybsp_init := 0, cy_retarget_io_init := 0, sysint_canfd := 1, sysint_button := 0,
              Cy_CANFD_Init := 0 } (resetState 0 [] false))).st = 1 := by
  refine ⟨by decide, by decide, by decide⟩

/-- Claim C6: the status returned by the driver has no influence on the loop
body: the state after the iteration is the same for any two status values, and
with the flag set the iteration appends exactly the line
"CANFD Frame sent from Node-1", makes exactly one transmit request and clears
the flag. -/
theorem C6_status_ignored (status1 status2 : Nat) (s : State) :
    main_loop_body status1 s = main_loop_body status2 s ∧
    (s.ButtonIntrFlag = true →
      (main_loop_body status1 s).uart = s.uart ++ "CANFD Frame sent from Node-1\r\n\r\n" ∧
      (main_loop_body status1 s).ButtonIntrFlag = false ∧
      transmits (main_loop_body status1 s) = transmits s + 1) := by
  refine ⟨rfl, fun h => ?_⟩
  rw [loop_body_pending status1 s h]
  simp [transmits]

theorem C6_status_ignored_witness :
    (isr_button (resetState 0 [] false)).ButtonIntrFlag = true ∧
    (main_loop_body CY_CANFD_SUCCESS (isr_button (resetState 0 [] false))).uart
      = (isr_button (resetState 0 [] false)).uart ++ "CANFD Frame sent from Node-1\r\n\r\n" ∧
    (main_loop_body CY_CANFD_SUCCESS (isr_button (resetState 0 [] false))).ButtonIntrFlag
      = false ∧
    transmits (main_loop_body CY_CANFD_SUCCESS (isr_button (resetState 0 [] false)))
      = transmits (isr_button (resetState 0 [] false)) + 1 :=
  ⟨rfl, (C6_status_ignored CY_CANFD_SUCCESS 7 (isr_button (resetState 0 [] false))).2 rfl⟩

/-- Claim C7: after successful initialisation the transmit descriptor has the
identifier of the node (1) and points to the application buffer of the two
words 0x04030201, 0x08070605, whose 8 bytes in memory order are 1, 2, ..., 8;
the button handler, the loop body and the receive callback leave the
identifier and the payload of the descriptor as they find them, in every
state; so after any sequence of these events the descriptor is the same, and
every transmit request made (channel 0, buffer 0) carries this identifier and
this payload. -/
theorem C7_tx_payload_constant (env : InitEnv) (cfgId : Nat) (cfgData : List Nat) (led : Bool)
    (evs : List Event) (s : State) (status : Nat) (v : Bool) (f : Nat)
    (rx : cy_stc_canfd_rx_buffer_t)
    (h1 : env.cybsp_init = CY_RSLT_SUCCESS) (h2 : env.cy_retarget_io_init = CY_RSLT_SUCCESS)
    (h3 : env.Cy_CANFD_Init = CY_CANFD_SUCCESS) :
    ((main env (resetState cfgId cfgData led)).phase = Phase.looping ∧
      (main env (resetState cfgId cfgData led)).st.T0_id = 1 ∧
      (main env (resetState cfgId cfgData led)).st.data_area_f = DataPtr.canfd_dataBuffer ∧
      txData (main env (resetState cfgId cfgData led)).st = [0x04030201, 0x08070605] ∧
      bytesOfWords (txData (main env (resetState cfgId cfgData led)).st)
        = [1, 2, 3, 4, 5, 6, 7, 8]) ∧
    ((isr_button s).T0_id = s.T0_id ∧ txData (isr_button s) = txData s ∧
      (main_loop_body status s).T0_id = s.T0_id ∧ txData (main_loop_body status s) = txData s ∧
      (canfd_rx_callback v f rx s).state.T0_id = s.T0_id ∧
      txData (canfd_rx_callback v f rx s).state = txData s) ∧
    ((run evs (main env (resetState cfgId cfgData led))).st.T0_id = 1 ∧
      txData (run evs (main env (resetState cfgId cfgData led))).st
        = [0x04030201, 0x08070605] ∧
      ∀ r ∈ (run evs (main env (resetState cfgId cfgData led))).st.txLog,
        r.chan = 0 ∧ r.index = 0 ∧ r.id = 1 ∧ r.data = [0x04030201, 0x08070605] ∧
        bytesOfWords r.data = [1, 2, 3, 4, 5, 6, 7, 8]) := by
  obtain ⟨m1, m2, m3, m4, m5, _⟩ := main_success env (resetState cfgId cfgData led) h1 h2 h3
  have hinit : canfd_dataBuffer_init = [0x04030201, 0x08070605] := by decide
  have hbytes : bytesOfWords [0x04030201, 0x08070605] = [1, 2, 3, 4, 5, 6, 7, 8] := by decide
  have inv0 : TxInv (main env (resetState cfgId cfgData led)).st := by
    refine ⟨m2, m3, by rw [m4]; rfl, ?_⟩
    intro r hr
    rw [m5] at hr
    exact absurd hr (List.not_mem_nil r)
  have hdata : ∀ t : State, TxInv t → t.T0_id = 1 ∧ txData t = [0x04030201, 0x08070605] := by
    intro t ht
    refine ⟨ht.1, ?_⟩
    simp only [txData, ht.2.1, ht.2.2.1, hinit]
  have invN := run_TxInv evs _ inv0
  have hrx := rx_frame v f rx s
  refine ⟨⟨m1, (hdata _ inv0).1, m3, (hdata _ inv0).2, by rw [(hdata _ inv0).2, hbytes]⟩,
    ⟨rfl, rfl, (loop_body_frame status s).1, (loop_body_frame status s).2.2.2,
      by rw [hrx], by rw [hrx]; rfl⟩,
    ⟨(hdata _ invN).1, (hdata _ invN).2, ?_⟩⟩
  intro r hr
  obtain ⟨a, b, c, d⟩ := invN.2.2.2 r hr
  exact ⟨a, b, c, by rw [d, hinit], by rw [d, hinit, hbytes]⟩

theorem C7_tx_payload_constant_witness :
    CY_RSLT_SUCCESS = CY_RSLT_SUCCESS ∧ CY_CANFD_SUCCESS = CY_CANFD_SUCCESS ∧
    (run [Event.button, Event.loopIter 0]
      (main { cybsp_init := CY_RSLT_SUCCESS, cy_retarget_io_init := CY_RSLT_SUCCESS,
              sysint_canfd := 0, sysint_button := 0, Cy_CANFD_Init := CY_CANFD_SUCCESS }
        (resetState 5 [9, 9] false))).st.T0_id = 1 ∧
    txData (run [Event.button, Event.loopIter 0]
      (main { cybsp_init := CY_RSLT_SUCCESS, cy_retarget_io_init := CY_RSLT_SUCCESS,
              sysint_canfd := 0, sysint_button := 0, Cy_CANFD_Init := CY_CANFD_SUCCESS }
        (resetState 5 [9, 9] false))).st = [0x04030201, 0x08070605] :=
  ⟨rfl, rfl,
   (C7_tx_payload_constant
      { cybsp_init := CY_RSLT_SUCCESS, cy_retarget_io_init := CY_RSLT_SUCCESS,
        sysint_canfd := 0, sysint_button := 0, Cy_CANFD_Init := CY_CANFD_SUCCESS }
      5 [9, 9] false [Event.button, Event.loopIter 0] (resetState 5 [9, 9] false) 0 false 0
      (cy_stc_canfd_rx_buffer_t.mk ⟨0, 0⟩ ⟨0⟩ (fun _ => 0)) rfl rfl rfl).2.2.1,
   (C7_tx_payload_constant
      { cybsp_init := CY_RSLT_SUCCESS, cy_retarget_io_init := CY_RSLT_SUCCESS,
        sysint_canfd := 0, sysint_button := 0, Cy_CANFD_Init := CY_CANFD_SUCCESS }
      5 [9, 9] false [Event.button, Event.loopIter 0] (resetState 5 [9, 9] false) 0 false 0
      (cy_stc_canfd_rx_buffer_t.mk ⟨0, 0⟩ ⟨0⟩ (fun _ => 0)) rfl rfl rfl).2.2.2.1⟩

/-- Claim C8: the flag has the two states idle (false) and pending (true); the
button handler moves either state to pending without transmitting; a loop
iteration moves pending to idle with exactly one transmit request and leaves
idle unchanged; the receive callback leaves the flag alone. Hence `k >= 1`
button presses between two consecutive loop iterations give exactly one
transmit request, and along every sequence of events that starts with the flag
false the number of transmit requests made is at most the number of
button-handler invocations. -/
theorem C8_flag_state_machine (k : Nat) (status1 status2 : Nat) (s : State)
    (evs : List Event) (y : Sys) (v : Bool) (f : Nat) (rx : cy_stc_canfd_rx_buffer_t) :
    ((isr_button s).ButtonIntrFlag = true ∧ transmits (isr_button s) = transmits s) ∧
    (s.ButtonIntrFlag = true →
      (main_loop_body status1 s).ButtonIntrFlag = false ∧
      transmits (main_loop_body status1 s) = transmits s + 1) ∧
    (s.ButtonIntrFlag = false → main_loop_body status1 s = s) ∧
    (canfd_rx_callback v f rx s).state.ButtonIntrFlag = s.ButtonIntrFlag ∧
    (1 ≤ k →
      transmits (main_loop_body status2 (pressTimes k (main_loop_body status1 s)))
        = transmits (main_loop_body status1 s) + 1 ∧
      (main_loop_body status2 (pressTimes k (main_loop_body status1 s))).ButtonIntrFlag
        = false) ∧
    (y.st.ButtonIntrFlag = false →
      transmits (run evs y).st ≤ transmits y.st + presses evs) := by
  refine ⟨⟨rfl, rfl⟩, fun h => ?_, loop_body_idle status1 s, rx_flag v f rx s, fun hk => ?_,
    fun h => ?_⟩
  · rw [loop_body_pending status1 s h]
    simp [transmits]
  · obtain ⟨p1, p2⟩ := pressTimes_pos k hk (main_loop_body status1 s)
    rw [loop_body_pending status2 _ p1]
    simp [transmits, p2]
  · have hp : pendingCount y.st = 0 := by simp [pendingCount, h]
    have := run_potential evs y
    rw [hp] at this
    omega

theorem C8_flag_state_machine_witness :
    (1 ≤ 3 ∧
      transmits (main_loop_body 0 (pressTimes 3 (main_loop_body 0 (resetState 0 [] false))))
        = transmits (main_loop_body 0 (resetState 0 [] false)) + 1) ∧
    ((isr_button (resetState 0 [] false)).ButtonIntrFlag = true ∧
      transmits (main_loop_body 0 (isr_button (resetState 0 [] false)))
        = transmits (isr_button (resetState 0 [] false)) + 1) ∧
    ((resetState 0 [] false).ButtonIntrFlag = false ∧
      main_loop_body 0 (resetState 0 [] false) = resetState 0 [] false) ∧
    ((Sys.mk Phase.looping (resetState 0 [] false)).st.ButtonIntrFlag = false ∧
      transmits (run [Event.button, Event.button, Event.loopIter 0, Event.loopIter 0]
          (Sys.mk Phase.looping (resetState 0 [] false))).st
        ≤ transmits (Sys.mk Phase.looping (resetState 0 [] false)).st
          + presses [Event.button, Event.button, Event.loopIter 0, Event.loopIter 0]) :=
  ⟨⟨by decide,
    ((C8_flag_state_machine 3 0 0 (resetState 0 [] false) []
      (Sys.mk Phase.looping (resetState 0 [] false)) false 0
      (cy_stc_canfd_rx_buffer_t.mk ⟨0, 0⟩ ⟨0⟩ (fun _ => 0))).2.2.2.2.1 (by decide)).1⟩,
   ⟨rfl,
    ((C8_flag_state_machine 1 0 0 (isr_button (resetState 0 [] false)) []
      (Sys.mk Phase.looping (resetState 0 [] false)) false 0
      (cy_stc_canfd_rx_buffer_t.mk ⟨0, 0⟩ ⟨0⟩ (fun _ => 0))).2.1 rfl).2⟩,
   ⟨rfl,
    (C8_flag_state_machine 1 0 0 (resetState 0 [] false) []
      (Sys.mk Phase.looping (resetState 0 [] false)) false 0
      (cy_stc_canfd_rx_buffer_t.mk ⟨0, 0⟩ ⟨0⟩ (fun _ => 0))).2.2.1 rfl⟩,
   ⟨rfl,
    (C8_flag_state_machine 1 0 0 (resetState 0 [] false)
      [Event.button, Event.button, Event.loopIter 0, Event.loopIter 0]
      (Sys.mk Phase.looping (resetState 0 [] false)) false 0
      (cy_stc_canfd_rx_buffer_t.mk ⟨0, 0⟩ ⟨0⟩ (fun _ => 0))).2.2.2.2.2 rfl⟩⟩

/-- Claim C9: for a valid data frame whose DLC `n` is a 4-bit value, every index
of `canfd_data_buffer` accessed by the copy and by the logging loop is below the
capacity `CANFD_DLC = 8` if and only if `n <= 8`; for `n <= 8` the indices are
0 .. n-1 written and then 0 .. n-1 read, for `n > 8` the copy reaches index 8,
which no check in the callback prevents. -/
theorem C9_rx_copy_bounds (f : Nat) (rx : cy_stc_canfd_rx_buffer_t) (s : State)
    (hrtr : rx.r0_f.rtr = CY_CANFD_RTR_DATA_FRAME) (hdlc : rx.r1_f.dlc < 16) :
    CANFD_DLC = 8 ∧
    ((∀ i ∈ (canfd_rx_callback true f rx s).touched, i < CANFD_DLC) ↔
      rx.r1_f.dlc ≤ CANFD_DLC) ∧
    ((canfd_rx_callback true f rx s).fault = false ↔ rx.r1_f.dlc ≤ CANFD_DLC) ∧
    (rx.r1_f.dlc ≤ CANFD_DLC →
      (canfd_rx_callback true f rx s).touched
        = List.range rx.r1_f.dlc ++ List.range rx.r1_f.dlc) ∧
    (CANFD_DLC < rx.r1_f.dlc →
      (canfd_rx_callback true f rx s).touched = List.range (CANFD_DLC + 1)) := by
  have hd : uint32 rx.r1_f.dlc = rx.r1_f.dlc := Nat.mod_eq_of_lt (by omega)
  by_cases hn : rx.r1_f.dlc ≤ CANFD_DLC
  · have e := rx_data_frame_ok f rx s hrtr (by rw [hd]; exact hn)
    rw [e, hd]
    refine ⟨rfl, ?_, ?_, ?_, ?_⟩
    · refine ⟨fun _ => hn, fun _ i hi => ?_⟩
      simp only [List.mem_append, List.mem_range'_1] at hi
      omega
    · exact ⟨fun _ => hn, fun _ => rfl⟩
    · intro _
      simp only [List.range_eq_range']
    · intro h; omega
  · have e := rx_data_frame_over f rx s hrtr (by rw [hd]; omega)
    rw [e]
    refine ⟨rfl, ?_, ?_, ?_, ?_⟩
    · refine ⟨fun h => ?_, fun h => absurd h hn⟩
      have := h CANFD_DLC (by simp [List.mem_range'_1])
      omega
    · exact ⟨fun h => by simp at h, fun h => absurd h hn⟩
    · intro h; exact absurd h hn
    · intro _
      simp only [List.range_eq_range']

theorem C9_rx_copy_bounds_witness :
    CY_CANFD_RTR_DATA_FRAME = CY_CANFD_RTR_DATA_FRAME ∧ 9 < 16 ∧ CANFD_DLC < 9 ∧
    (canfd_rx_callback true 0
        { r0_f := { id := 1, rtr := CY_CANFD_RTR_DATA_FRAME }, r1_f := { dlc := 9 },
          data_area_f := fun _ => 0 } (resetState 0 [] false)).touched
      = List.range (CANFD_DLC + 1) :=
  ⟨rfl, by decide, by decide,
   (C9_rx_copy_bounds 0
      { r0_f := { id := 1, rtr := CY_CANFD_RTR_DATA_FRAME }, r1_f := { dlc := 9 },
        data_area_f := fun _ => 0 } (resetState 0 [] false) rfl (by decide)).2.2.2.2 (by decide)⟩

/-- Claim C10: for all arguments and every prior state the receive callback
changes nothing but the LED level, the count of LED inversions and the UART text
(so the flag, the transmit descriptor, the payload buffer and the list of
transmit requests stay as they were), and its result does not depend on the
FIFO number. -/
theorem C10_rx_frame (v : Bool) (f g : Nat) (rx : cy_stc_canfd_rx_buffer_t) (s : State) :
    (canfd_rx_callback v f rx s).state =
      { s with led := (canfd_rx_callback v f rx s).state.led,
               ledInv := (canfd_rx_callback v f rx s).state.ledInv,
               uart := (canfd_rx_callback v f rx s).state.uart } ∧
    (canfd_rx_callback v f rx s).state.ButtonIntrFlag = s.ButtonIntrFlag ∧
    (canfd_rx_callback v f rx s).state.T0_id = s.T0_id ∧
    (canfd_rx_callback v f rx s).state.data_area_f = s.data_area_f ∧
    (canfd_rx_callback v f rx s).state.canfd_dataBuffer = s.canfd_dataBuffer ∧
    txData (canfd_rx_callback v f rx s).state = txData s ∧
    (canfd_rx_callback v f rx s).state.txLog = s.txLog ∧
    canfd_rx_callback v f rx s = canfd_rx_callback v g rx s := by
  have e := rx_frame v f rx s
  refine ⟨e, ?_, ?_, ?_, ?_, ?_, ?_, rfl⟩
  · rw [e]
  · rw [e]
  · rw [e]
  · rw [e]
  · rw [e]; rfl
  · rw [e]

end Canfd
